import Mathlib

/-!
Verification of the ImageBlock Python binding
(`src/librender/python/imageblock_v.cpp`) and the image accumulation
buffer it exposes.

The binding file is the available source: it declares two constructors
with backend-dependent default flags, two `put` overloads (spectral and
raw channel vector), `read`, `clear` and accessors.  The underlying
`ImageBlock` C++ core is not part of the available sources, so its
splatting/reading semantics are modelled from the specification where
needed; every such definition is marked `Modelled from the spec:` in its
doc comment.  Floating-point channel values are modelled as rationals.
-/

namespace ImageBlockSpec

/-! ## Execution backends and the binding's default flags

The binding computes default argument values from the template parameter
`Float` of the compiled variant: `std::is_scalar_v<Float>` and
`ek::is_llvm_array_v<Float>`.  The repository's variants instantiate
`Float` as a plain scalar (`scalar_*` variants), a wide LLVM JIT array
(`llvm_*` variants) or a CUDA JIT array (`cuda_*` variants). -/

/-- The execution backends over which the binding is compiled:
`Float = float` (scalar), `Float = LLVMArray<float>` (wide vectorized
CPU), `Float = CUDAArray<float>` (wide parallel GPU). -/
inductive Backend where
  | scalar
  | llvm
  | cuda
deriving DecidableEq

/-- `std::is_scalar_v<Float>`: true exactly for the scalar backend. -/
def is_scalar_v : Backend → Bool
  | .scalar => true
  | _ => false

/-- `ek::is_llvm_array_v<Float>`: true exactly for the LLVM backend. -/
def is_llvm_array_v : Backend → Bool
  | .llvm => true
  | _ => false

/-- A wide vectorized/parallel backend, in the spec's sense: any
backend other than the sequential scalar one (LLVM or CUDA). -/
def is_wide_parallel (b : Backend) : Bool :=
  !is_scalar_v b

/-- Binding default for `border` (`"border"_a = std::is_scalar_v<Float>`),
identical in both constructors. -/
def border_default (b : Backend) : Bool := is_scalar_v b

/-- Binding default for `normalize` (`"normalize"_a = false`). -/
def normalize_default : Bool := false

/-- Binding default for `coalesce`
(`"coalesce"_a = ek::is_llvm_array_v<Float>`). -/
def coalesce_default (b : Backend) : Bool := is_llvm_array_v b

/-- Binding default for `warn_negative`
(`"warn_negative"_a = std::is_scalar_v<Float>`). -/
def warn_negative_default (b : Backend) : Bool := is_scalar_v b

/-- Binding default for `warn_invalid`
(`"warn_invalid"_a = std::is_scalar_v<Float>`). -/
def warn_invalid_default (b : Backend) : Bool := is_scalar_v b

/-- Binding default for `rfilter` (`"rfilter"_a = nullptr`): no
reconstruction filter. -/
def rfilter_default {α : Type} : Option α := none

/-- Binding default for `active` in the raw-values `put` overload
(`"active"_a = true`). -/
def put_raw_active_default : Bool := true

/-- Binding default for `active` in `read` (`"active"_a = true`). -/
def read_active_default : Bool := true

/-- Binding default for `alpha` in the spectral `put`
(`"alpha"_a = 1.f`). -/
def put_spectral_alpha_default : ℚ := 1

/-- Binding default for `weight` in the spectral `put`
(`"weight"_a = 1`). -/
def put_spectral_weight_default : ℚ := 1

/-- Binding default for `active` in the spectral `put`
(`"active"_a = true`). -/
def put_spectral_active_default : Bool := true

/-! ## Reconstruction filter adapter

Modelled from the spec: the filter core is external to the available
fragment; §4.1 gives its contract (footprint radius plus per-offset
weight evaluation). -/

/-- Modelled from the spec: a reconstruction filter, as the Filter
Adapter sees it — an integer footprint radius and a pure weight
evaluation over fractional 2D offsets (§4.1). -/
structure Filter where
  radius : ℕ
  eval : ℚ × ℚ → ℚ

/-- Nearest integer pixel to a continuous coordinate. -/
def nearestPix (q : ℚ) : ℤ := ⌊q + 1/2⌋

/-- Nearest integer cell to a continuous 2D position. -/
def nearestCell (p : ℚ × ℚ) : ℤ × ℤ := (nearestPix p.1, nearestPix p.2)

/-- Integer offsets in `[⌈q - r⌉, ⌊q + r⌋]`, the 1D footprint of a
radius-`r` filter centred at `q`. -/
def axisRange (q : ℚ) (r : ℕ) : List ℤ :=
  (List.range (2 * r + 1)).map (fun i => ⌈q - (r : ℚ)⌉ + (i : ℤ)) |>.filter
    (fun x => (x : ℚ) ≤ q + (r : ℚ))

/-- Modelled from the spec: the Filter Adapter's footprint query (§4.1)
— given a continuous position, the integer cells within the filter's
support, each with a scalar weight.  With no filter supplied, exactly
one cell (the nearest) with weight 1. -/
def footprint : Option Filter → ℚ × ℚ → List ((ℤ × ℤ) × ℚ)
  | none, p => [(nearestCell p, 1)]
  | some f, p =>
      (axisRange p.2 f.radius).flatMap (fun y =>
        (axisRange p.1 f.radius).map (fun x =>
          ((x, y), f.eval ((x : ℚ) - p.1, (y : ℚ) - p.2))))

/-! ## Tensor storage

Modelled from the spec: a dense array of shape
`(height + 2·border) × (width + 2·border) × channel_count` (§3), with an
implicit per-cell weight-accumulator channel used by normalization
(§4.2).  A cell is its channel vector paired with its accumulated
weight. -/

/-- A storage cell: the per-channel accumulated values and the implicit
weight-accumulator channel. -/
abbrev Cell : Type := List ℚ × ℚ

/-- The storage tensor: rows (height-major) of cells. -/
abbrev Grid : Type := List (List Cell)

/-- Apply `f` to the element at index `n`, leaving the list unchanged
when `n` is out of range. -/
def modifyNth {α : Type} (f : α → α) : ℕ → List α → List α
  | _, [] => []
  | 0, a :: as => f a :: as
  | n + 1, a :: as => a :: modifyNth f n as

/-- Modelled from the spec: `accumulate` of Tensor Storage (§4.2) —
adds `values[i] * w` to channel `i` and, when normalization is enabled
for the owning block, adds `w` to the weight-accumulator channel. -/
def accumulate (normalize : Bool) (values : List ℚ) (w : ℚ) (c : Cell) : Cell :=
  (c.1.zipWith (fun cv v => cv + v * w) values,
   if normalize then c.2 + w else c.2)

/-- Update the cell at integer coordinates `(x, y)` of a grid; a
negative coordinate leaves the grid unchanged (out of range). -/
def modifyCell (f : Cell → Cell) (xy : ℤ × ℤ) (g : Grid) : Grid :=
  if xy.1 < 0 ∨ xy.2 < 0 then g
  else modifyNth (modifyNth f xy.1.toNat) xy.2.toNat g

/-! ## The image block -/

/-- The accumulation buffer: offset, interior size, border margin,
channel count, optional reconstruction filter, the boolean flags of the
binding, and the owned storage tensor. -/
structure ImageBlock where
  offset : ℤ × ℤ
  size : ℕ × ℕ
  border_size : ℕ
  channel_count : ℕ
  rfilter : Option Filter
  border : Bool
  normalize : Bool
  coalesce : Bool
  warn_negative : Bool
  warn_invalid : Bool
  data : Grid

/-- Width of the allocated (border-inclusive) extent. -/
def ImageBlock.fullWidth (ib : ImageBlock) : ℕ :=
  ib.size.1 + 2 * ib.border_size

/-- Height of the allocated (border-inclusive) extent. -/
def ImageBlock.fullHeight (ib : ImageBlock) : ℕ :=
  ib.size.2 + 2 * ib.border_size

/-- A zero-initialised cell with `cc` channels. -/
def zeroCell (cc : ℕ) : Cell := (List.replicate cc 0, 0)

/-- A zero grid of the given border-inclusive dimensions. -/
def zeroGrid (w h cc : ℕ) : Grid :=
  List.replicate h (List.replicate w (zeroCell cc))

/-- First `ImageBlock` constructor of the binding
(`offset, size, channel_count, rfilter, border, normalize, coalesce,
warn_negative, warn_invalid`): allocates a fresh zeroed storage tensor
sized `size + 2·border_size`, the border margin being the filter's
radius unless the `border` flag is false (§3, §4.3). -/
def mkImageBlock (offset : ℤ × ℤ) (size : ℕ × ℕ) (channel_count : ℕ)
    (rfilter : Option Filter) (border normalize coalesce warn_negative warn_invalid : Bool) :
    ImageBlock :=
  let bs : ℕ := if border then (match rfilter with | none => 0 | some f => f.radius) else 0
  { offset := offset
    size := size
    border_size := bs
    channel_count := channel_count
    rfilter := rfilter
    border := border
    normalize := normalize
    coalesce := coalesce
    warn_negative := warn_negative
    warn_invalid := warn_invalid
    data := zeroGrid (size.1 + 2 * bs) (size.2 + 2 * bs) channel_count }

/-- First constructor with every defaultable argument left at the
binding's default for backend `b`. -/
def mkImageBlockDefaults (b : Backend) (offset : ℤ × ℤ) (size : ℕ × ℕ)
    (channel_count : ℕ) : ImageBlock :=
  mkImageBlock offset size channel_count rfilter_default (border_default b)
    normalize_default (coalesce_default b) (warn_negative_default b)
    (warn_invalid_default b)

/-- Second `ImageBlock` constructor of the binding
(`offset, tensor, rfilter, border, normalize, coalesce, warn_negative,
warn_invalid`): adopts an externally supplied tensor as storage, the
size being derived from the tensor's shape minus the border and the
channel count from its channel dimension (§4.3). -/
def mkImageBlockFromTensor (offset : ℤ × ℤ) (tensor : Grid)
    (rfilter : Option Filter)
    (border normalize coalesce warn_negative warn_invalid : Bool) :
    ImageBlock :=
  let bs : ℕ := if border then (match rfilter with | none => 0 | some f => f.radius) else 0
  { offset := offset
    size := (tensor.headI.length - 2 * bs, tensor.length - 2 * bs)
    border_size := bs
    channel_count := (Prod.fst tensor.headI.headI).length
    rfilter := rfilter
    border := border
    normalize := normalize
    coalesce := coalesce
    warn_negative := warn_negative
    warn_invalid := warn_invalid
    data := tensor }

/-- Second constructor with every defaultable argument left at the
binding's default for backend `b`. -/
def mkImageBlockFromTensorDefaults (b : Backend) (offset : ℤ × ℤ)
    (tensor : Grid) : ImageBlock :=
  mkImageBlockFromTensor offset tensor rfilter_default (border_default b)
    normalize_default (coalesce_default b) (warn_negative_default b)
    (warn_invalid_default b)

/-- Modelled from the spec: `clear()` (§4.3) — zeroes the storage
tensor; offset, size, filter and flags are preserved. -/
def ImageBlock.clear (ib : ImageBlock) : ImageBlock :=
  { ib with data := zeroGrid ib.fullWidth ib.fullHeight ib.channel_count }

/-- Position of a sample relative to the block: the offset is
subtracted and the border size added (§4.3). -/
def ImageBlock.localPos (ib : ImageBlock) (pos : ℚ × ℚ) : ℚ × ℚ :=
  (pos.1 - (ib.offset.1 : ℚ) + (ib.border_size : ℚ),
   pos.2 - (ib.offset.2 : ℚ) + (ib.border_size : ℚ))

/-- Whether integer cell coordinates lie inside a `w × h` extent. -/
def inBounds (w h : ℕ) (xy : ℤ × ℤ) : Bool :=
  0 ≤ xy.1 && xy.1 < (w : ℤ) && 0 ≤ xy.2 && xy.2 < (h : ℤ)

/-- One splatting step: accumulate `values` with the given filter
weight into the cell, provided it lies inside the `w × h` extent;
out-of-extent cells are dropped silently. -/
def splatStep (w h : ℕ) (normalize : Bool) (values : List ℚ)
    (g : Grid) (c : (ℤ × ℤ) × ℚ) : Grid :=
  if inBounds w h c.1 then modifyCell (accumulate normalize values c.2) c.1 g
  else g

/-- Modelled from the spec: the core splatting logic of
`ImageBlock::put` (§4.3) — skip entirely when the active mask is false;
otherwise locate the position relative to the offset, query the Filter
Adapter for the footprint, and accumulate `values[i] * filter_weight`
into every footprint cell inside the allocated extent, dropping the
rest silently. -/
def ImageBlock.put (ib : ImageBlock) (pos : ℚ × ℚ) (values : List ℚ)
    (active : Bool) : ImageBlock :=
  if !active then ib
  else
    { ib with
      data := (footprint ib.rfilter (ib.localPos pos)).foldl
        (splatStep ib.fullWidth ib.fullHeight ib.normalize values) ib.data }

/-- The raw-values `put` overload of the binding: checks the supplied
vector's length against `channel_count` and throws
`"Incompatible channel count!"` before calling the core `put`; on a
mismatch the core is never reached. -/
def ImageBlock.put_raw (ib : ImageBlock) (pos : ℚ × ℚ) (values : List ℚ)
    (active : Bool) : Except String ImageBlock :=
  if values.length ≠ ib.channel_count then
    Except.error "Incompatible channel count!"
  else
    Except.ok (ib.put pos values active)

/-- The block state after a raw-values `put` call: the new state on
success, the unchanged receiver when the binding threw. -/
def ImageBlock.put_raw_state (ib : ImageBlock) (pos : ℚ × ℚ)
    (values : List ℚ) (active : Bool) : ImageBlock :=
  match ib.put_raw pos values active with
  | Except.ok ib2 => ib2
  | Except.error _ => ib

/-- The spectral `put` overload: converts `(wavelengths, value)` to the
block's channel representation through the opaque external
spectral-response step `conv`, appends `alpha` and `weight` as trailing
channels, and splats (§4.3). -/
def ImageBlock.put_spectral (ib : ImageBlock)
    (conv : List ℚ → List ℚ → List ℚ) (pos : ℚ × ℚ)
    (wavelengths value : List ℚ) (alpha weight : ℚ) (active : Bool) :
    ImageBlock :=
  ib.put pos (conv wavelengths value ++ [alpha, weight]) active

/-- The cell stored at integer coordinates `(x, y)` of a grid, when
present. -/
def gridCell (g : Grid) (xy : ℤ × ℤ) : Option Cell :=
  if xy.1 < 0 ∨ xy.2 < 0 then none
  else g[xy.2.toNat]?.bind (fun row => row[xy.1.toNat]?)

/-- The cell stored at integer coordinates `(x, y)`, when allocated. -/
def ImageBlock.cellAt (ib : ImageBlock) (xy : ℤ × ℤ) : Option Cell :=
  gridCell ib.data xy

/-- Modelled from the spec: the per-channel values a `read` reports for
a cell (§4.3) — raw when normalization is off; divided by the
weight-accumulator channel when it is on, a zero accumulated weight
yielding zero instead of NaN/Inf. -/
def readCell (normalize : Bool) (c : Cell) : List ℚ :=
  if normalize then
    if c.2 = 0 then c.1.map (fun _ => 0) else c.1.map (fun v => v / c.2)
  else c.1

/-- Modelled from the spec: `ImageBlock::read` (§4.3) — an inactive
read returns a zero vector without touching storage; otherwise the
nearest storage cell for the position is looked up directly (no
filter-weighted reconstruction) and its per-channel values returned,
normalized when the flag is set; a position outside the allocated
extent reads as zero.  The binding allocates the result vector with
exactly `channel_count` entries. -/
def ImageBlock.read (ib : ImageBlock) (pos : ℚ × ℚ) (active : Bool) :
    List ℚ :=
  if !active then List.replicate ib.channel_count 0
  else
    match ib.cellAt (nearestCell (ib.localPos pos)) with
    | none => List.replicate ib.channel_count 0
    | some c => readCell ib.normalize c

/-- Well-formed storage: every allocated cell carries exactly
`channel_count` channel values. -/
def ImageBlock.WF (ib : ImageBlock) : Prop :=
  ∀ row ∈ ib.data, ∀ c ∈ row, (Prod.fst c).length = ib.channel_count

instance (ib : ImageBlock) : Decidable ib.WF := by
  unfold ImageBlock.WF; infer_instance

/-- The block of the spec's example scenario: offset `(0,0)`, size
`(4,4)`, `channel_count = 5`, no filter, border disabled. -/
def sampleBlock : ImageBlock :=
  mkImageBlock (0, 0) (4, 4) 5 none false false false false false

/-- A small block with normalization enabled, for exercising the
division guard of `read`. -/
def normBlock : ImageBlock :=
  mkImageBlock (0, 0) (2, 2) 3 none false true false false false

/-! ## Helper lemmas -/

theorem getElem?_modifyNth {α : Type} (f : α → α) :
    ∀ (n m : ℕ) (l : List α),
      (modifyNth f n l)[m]? = if n = m then l[m]?.map f else l[m]? := by
  intro n m l
  induction l generalizing n m with
  | nil => simp [modifyNth]
  | cons a as ih =>
    cases n with
    | zero =>
      cases m with
      | zero => simp [modifyNth]
      | succ m => simp [modifyNth]
    | succ n =>
      cases m with
      | zero => simp [modifyNth]
      | succ m => simpa [modifyNth] using ih n m

theorem gridCell_modifyCell_ne (f : Cell → Cell) (xy zw : ℤ × ℤ) (g : Grid)
    (h : zw ≠ xy) : gridCell (modifyCell f xy g) zw = gridCell g zw := by
  by_cases hx : xy.1 < 0 ∨ xy.2 < 0
  · rw [modifyCell, if_pos hx]
  · rw [modifyCell, if_neg hx]
    by_cases hz : zw.1 < 0 ∨ zw.2 < 0
    · rw [gridCell, if_pos hz, gridCell, if_pos hz]
    · rw [gridCell, if_neg hz, gridCell, if_neg hz]
      push_neg at hx hz
      rcases eq_or_ne zw.2.toNat xy.2.toNat with hy | hy
      · have hy2 : zw.2 = xy.2 := by omega
        have hx1 : zw.1 ≠ xy.1 := fun e => h (Prod.ext e hy2)
        have hx1n : xy.1.toNat ≠ zw.1.toNat := by omega
        rw [hy, getElem?_modifyNth, if_pos rfl]
        cases g[xy.2.toNat]? with
        | none => simp
        | some row => simp [getElem?_modifyNth, hx1n]
      · rw [getElem?_modifyNth, if_neg (Ne.symm hy)]

theorem gridCell_modifyCell_eq (f : Cell → Cell) (xy : ℤ × ℤ) (g : Grid)
    (h1 : 0 ≤ xy.1) (h2 : 0 ≤ xy.2) :
    gridCell (modifyCell f xy g) xy = (gridCell g xy).map f := by
  have hx : ¬ (xy.1 < 0 ∨ xy.2 < 0) := by omega
  rw [modifyCell, if_neg hx, gridCell, if_neg hx, gridCell, if_neg hx]
  rw [getElem?_modifyNth, if_pos rfl]
  cases g[xy.2.toNat]? with
  | none => simp
  | some row => simp [getElem?_modifyNth]

theorem inBounds_nonneg {w h : ℕ} {xy : ℤ × ℤ} (hb : inBounds w h xy = true) :
    0 ≤ xy.1 ∧ 0 ≤ xy.2 := by
  simp only [inBounds, Bool.and_eq_true, decide_eq_true_eq] at hb
  exact ⟨hb.1.1.1, hb.1.2⟩

theorem foldl_splatStep_oob (w h : ℕ) (norm : Bool) (values : List ℚ) :
    ∀ (l : List ((ℤ × ℤ) × ℚ)) (g : Grid),
      (∀ c ∈ l, inBounds w h c.1 = false) →
      l.foldl (splatStep w h norm values) g = g := by
  intro l
  induction l with
  | nil => intro g _; rfl
  | cons c cs ih =>
    intro g hl
    have hc : splatStep w h norm values g c = g := by
      simp [splatStep, hl c (List.mem_cons_self c cs)]
    rw [List.foldl_cons, hc]
    exact ih g (fun d hd => hl d (List.mem_cons_of_mem c hd))

theorem cellAt_length_of_WF {ib : ImageBlock} {xy : ℤ × ℤ} {c : Cell}
    (hwf : ib.WF) (h : ib.cellAt xy = some c) :
    (Prod.fst c).length = ib.channel_count := by
  unfold ImageBlock.cellAt at h
  by_cases hx : xy.1 < 0 ∨ xy.2 < 0
  · rw [gridCell, if_pos hx] at h
    exact absurd h (by simp)
  · rw [gridCell, if_neg hx] at h
    rw [Option.bind_eq_some] at h
    obtain ⟨row, hrow, hc⟩ := h
    exact hwf row (List.getElem?_mem hrow) c (List.getElem?_mem hc)

/-! ## Claims -/

/-- C1: for every `ImageBlock` and every call to the raw
`put(position, values[], active)` overload where the length of `values`
differs from the block's `channel_count`, the call fails with the
channel-mismatch error, and — the error being thrown before the core
`put` is reached — the block is left unmodified. -/
theorem put_raw_channel_mismatch (ib : ImageBlock) (pos : ℚ × ℚ)
    (values : List ℚ) (active : Bool)
    (h : values.length ≠ ib.channel_count) :
    ib.put_raw pos values active = Except.error "Incompatible channel count!" ∧
    ib.put_raw_state pos values active = ib := by
  refine ⟨?_, ?_⟩
  · rw [ImageBlock.put_raw, if_pos h]
  · rw [ImageBlock.put_raw_state, ImageBlock.put_raw, if_pos h]

/-- Witness for C1: passing 3 values to the 5-channel sample block
fails with the channel-mismatch error and leaves the block unchanged. -/
theorem put_raw_channel_mismatch_witness :
    ([1, 1, 1] : List ℚ).length ≠ sampleBlock.channel_count ∧
    sampleBlock.put_raw (1, 1) [1, 1, 1] true =
      Except.error "Incompatible channel count!" ∧
    sampleBlock.put_raw_state (1, 1) [1, 1, 1] true = sampleBlock := by
  have h : ([1, 1, 1] : List ℚ).length ≠ sampleBlock.channel_count := by decide
  obtain ⟨h1, h2⟩ := put_raw_channel_mismatch sampleBlock (1, 1) [1, 1, 1] true h
  exact ⟨h, h1, h2⟩

/-- C2 counterexample: the claim says `coalesce` defaults to true
exactly when the backend is wide vectorized/parallel, but on the CUDA
backend — wide and parallel — `ek::is_llvm_array_v<Float>` is false, so
the default is false. -/
theorem flag_defaults_counterexample :
    ¬ ((coalesce_default Backend.cuda = true) ↔
        (is_wide_parallel Backend.cuda = true)) := by
  decide

/-- C2 amended: in both constructors `border`, `warn_negative` and
`warn_invalid` default to true exactly when the backend is the
sequential scalar one, and `normalize` defaults to false on every
backend; `coalesce` defaults to true exactly when the backend is the
LLVM wide-vectorized one — a wide/parallel backend is implied by, but
not equivalent to, the default being true, since it stays false on
CUDA. -/
theorem flag_defaults_amended (b : Backend) (off : ℤ × ℤ) (sz : ℕ × ℕ)
    (cc : ℕ) (t : Grid) :
    ((mkImageBlockDefaults b off sz cc).border = true ↔ b = Backend.scalar) ∧
    ((mkImageBlockDefaults b off sz cc).warn_negative = true ↔ b = Backend.scalar) ∧
    ((mkImageBlockDefaults b off sz cc).warn_invalid = true ↔ b = Backend.scalar) ∧
    (mkImageBlockDefaults b off sz cc).normalize = false ∧
    ((mkImageBlockDefaults b off sz cc).coalesce = true ↔ b = Backend.llvm) ∧
    ((mkImageBlockFromTensorDefaults b off t).border = true ↔ b = Backend.scalar) ∧
    ((mkImageBlockFromTensorDefaults b off t).warn_negative = true ↔ b = Backend.scalar) ∧
    ((mkImageBlockFromTensorDefaults b off t).warn_invalid = true ↔ b = Backend.scalar) ∧
    (mkImageBlockFromTensorDefaults b off t).normalize = false ∧
    ((mkImageBlockFromTensorDefaults b off t).coalesce = true ↔ b = Backend.llvm) ∧
    (coalesce_default b = true → is_wide_parallel b = true) := by
  cases b <;>
    simp [mkImageBlockDefaults, mkImageBlock, mkImageBlockFromTensorDefaults,
      mkImageBlockFromTensor, border_default, normalize_default,
      coalesce_default, warn_negative_default, warn_invalid_default,
      is_scalar_v, is_llvm_array_v, is_wide_parallel]

/-- C3: on the block of the spec's example scenario (offset `(0,0)`,
size `(4,4)`, 5 channels, no filter, border disabled), after
`put((2,2), [1,1,1,1,1], true)` a `read((2,2), true)` returns
`[1,1,1,1,1]`, and after a subsequent `clear()` it returns
`[0,0,0,0,0]`. -/
theorem put_read_clear_scenario :
    (sampleBlock.put (2, 2) [1, 1, 1, 1, 1] true).read (2, 2) true =
      [1, 1, 1, 1, 1] ∧
    ((sampleBlock.put (2, 2) [1, 1, 1, 1, 1] true).clear).read (2, 2) true =
      [0, 0, 0, 0, 0] := by
  constructor <;>
    norm_num [sampleBlock, mkImageBlock, ImageBlock.put, ImageBlock.read,
      ImageBlock.clear, ImageBlock.localPos, ImageBlock.cellAt, gridCell,
      ImageBlock.fullWidth, ImageBlock.fullHeight, footprint, nearestCell,
      nearestPix, splatStep, inBounds, modifyCell, modifyNth, accumulate,
      readCell, zeroGrid, zeroCell, List.replicate, Int.toNat]

/-- C4: a `put` whose footprint lies entirely outside the
border-inclusive allocated extent is a no-op — the storage is unchanged
and, on the raw overload with a matching channel vector, no error is
raised. -/
theorem put_outside_extent_noop (ib : ImageBlock) (pos : ℚ × ℚ)
    (values wl v : List ℚ) (conv : List ℚ → List ℚ → List ℚ)
    (alpha weight : ℚ) (active : Bool)
    (hout : ∀ c ∈ footprint ib.rfilter (ib.localPos pos),
      inBounds ib.fullWidth ib.fullHeight c.1 = false)
    (hlen : values.length = ib.channel_count) :
    ib.put pos values active = ib ∧
    ib.put_raw pos values active = Except.ok ib ∧
    ib.put_spectral conv pos wl v alpha weight active = ib := by
  have hp : ∀ vs : List ℚ, ib.put pos vs active = ib := by
    intro vs
    unfold ImageBlock.put
    cases active with
    | false => rfl
    | true =>
      simp only [Bool.not_true, Bool.false_eq_true, if_false]
      rw [foldl_splatStep_oob ib.fullWidth ib.fullHeight ib.normalize vs
        (footprint ib.rfilter (ib.localPos pos)) ib.data hout]
  refine ⟨hp values, ?_, hp _⟩
  rw [ImageBlock.put_raw, if_neg (by simp [hlen]), hp values]

/-- Witness for C4: splatting at `(10,10)` on the `4×4` sample block
(extent `[0,4)²`) leaves it unchanged and raises no error. -/
theorem put_outside_extent_noop_witness :
    sampleBlock.put (10, 10) [2, 3, 4, 5, 6] true = sampleBlock ∧
    sampleBlock.put_raw (10, 10) [2, 3, 4, 5, 6] true = Except.ok sampleBlock ∧
    sampleBlock.put_spectral (fun _ _ => [7, 7, 7]) (10, 10) [] [] 1 1 true =
      sampleBlock := by
  apply put_outside_extent_noop
  · intro c hc
    norm_num [sampleBlock, mkImageBlock, footprint, nearestCell, nearestPix,
      ImageBlock.localPos] at hc
    subst hc
    norm_num [inBounds, sampleBlock, mkImageBlock, ImageBlock.fullWidth,
      ImageBlock.fullHeight]
  · decide

/-- C5: a `put` with `active = false` never mutates the block: the core
splatting, the raw-values overload (whatever the outcome of its length
check) and the spectral overload all leave the block exactly as it
was. -/
theorem put_inactive_never_mutates (ib : ImageBlock) (pos : ℚ × ℚ)
    (values wl v : List ℚ) (conv : List ℚ → List ℚ → List ℚ)
    (alpha weight : ℚ) :
    ib.put pos values false = ib ∧
    ib.put_raw_state pos values false = ib ∧
    ib.put_spectral conv pos wl v alpha weight false = ib := by
  refine ⟨rfl, ?_, rfl⟩
  by_cases hl : values.length ≠ ib.channel_count
  · rw [ImageBlock.put_raw_state, ImageBlock.put_raw, if_pos hl]
  · rw [ImageBlock.put_raw_state, ImageBlock.put_raw, if_neg hl]
    rfl

/-- C6: a normalized `read` at a cell whose accumulated weight channel
is zero is guarded — it returns the all-zero channel vector instead of
dividing by zero. -/
theorem read_normalize_zero_weight_guard (ib : ImageBlock) (pos : ℚ × ℚ)
    (hn : ib.normalize = true) (hwf : ib.WF)
    (hw : ∀ c, ib.cellAt (nearestCell (ib.localPos pos)) = some c →
      Prod.snd c = 0) :
    ib.read pos true = List.replicate ib.channel_count 0 := by
  unfold ImageBlock.read
  cases hc : ib.cellAt (nearestCell (ib.localPos pos)) with
  | none => simp
  | some c =>
    have h2 := hw c hc
    have hlen := cellAt_length_of_WF hwf hc
    simp only [Bool.not_true, Bool.false_eq_true, if_false, readCell, hn,
      if_pos rfl, h2, ← hlen]
    exact List.map_const' c.1 0

/-- Witness for C6: on a freshly constructed normalizing block (all
weights zero), `read((0,0), true)` returns the zero vector. -/
theorem read_normalize_zero_weight_guard_witness :
    normBlock.normalize = true ∧
    normBlock.read (0, 0) true = List.replicate normBlock.channel_count 0 := by
  refine ⟨by decide, ?_⟩
  apply read_normalize_zero_weight_guard
  · decide
  · decide
  · intro c hc
    norm_num [normBlock, mkImageBlock, ImageBlock.cellAt, gridCell,
      ImageBlock.localPos, nearestCell, nearestPix, zeroGrid, zeroCell,
      Int.toNat, List.replicate] at hc
    rw [← hc]

/-- C7: `read(position, active)` always returns a channel vector of
length exactly `channel_count`, for any position and any active mask,
on any block whose storage cells are well-formed. -/
theorem read_length_eq_channel_count (ib : ImageBlock) (pos : ℚ × ℚ)
    (active : Bool) (hwf : ib.WF) :
    (ib.read pos active).length = ib.channel_count := by
  unfold ImageBlock.read
  cases active with
  | false => simp
  | true =>
    cases hc : ib.cellAt (nearestCell (ib.localPos pos)) with
    | none => simp
    | some c =>
      have hlen := cellAt_length_of_WF hwf hc
      simp only [Bool.not_true, Bool.false_eq_true, if_false, readCell]
      split_ifs <;> simp [hlen]

/-- Witness for C7: a read on the 5-channel sample block returns 5
values. -/
theorem read_length_eq_channel_count_witness :
    (sampleBlock.read (3, 1) true).length = sampleBlock.channel_count :=
  read_length_eq_channel_count sampleBlock (3, 1) true (by decide)

/-- C8: both constructors default `rfilter` to nullptr (`none`); with
no filter supplied the footprint is exactly the nearest pixel with
weight 1, a `put` changes no cell other than the nearest one, and when
that cell is inside the extent it receives the values accumulated with
weight 1. -/
theorem no_filter_box_splat (ib : ImageBlock) (pos : ℚ × ℚ)
    (values : List ℚ) (b : Backend) (off : ℤ × ℤ) (sz : ℕ × ℕ) (cc : ℕ)
    (t : Grid) (h : ib.rfilter = none) :
    (mkImageBlockDefaults b off sz cc).rfilter = none ∧
    (mkImageBlockFromTensorDefaults b off t).rfilter = none ∧
    footprint ib.rfilter (ib.localPos pos) =
      [(nearestCell (ib.localPos pos), 1)] ∧
    (∀ xy, xy ≠ nearestCell (ib.localPos pos) →
      (ib.put pos values true).cellAt xy = ib.cellAt xy) ∧
    (inBounds ib.fullWidth ib.fullHeight (nearestCell (ib.localPos pos)) = true →
      (ib.put pos values true).cellAt (nearestCell (ib.localPos pos)) =
        (ib.cellAt (nearestCell (ib.localPos pos))).map
          (accumulate ib.normalize values 1)) := by
  have hput : (ib.put pos values true).data =
      splatStep ib.fullWidth ib.fullHeight ib.normalize values ib.data
        (nearestCell (ib.localPos pos), 1) := by
    unfold ImageBlock.put
    rw [h]
    rfl
  refine ⟨rfl, rfl, by rw [h]; rfl, ?_, ?_⟩
  · intro xy hxy
    show gridCell (ib.put pos values true).data xy = gridCell ib.data xy
    rw [hput, splatStep]
    by_cases hb : inBounds ib.fullWidth ib.fullHeight (nearestCell (ib.localPos pos)) = true
    · rw [if_pos hb]
      exact gridCell_modifyCell_ne _ _ _ _ hxy
    · rw [if_neg hb]
  · intro hb
    show gridCell (ib.put pos values true).data (nearestCell (ib.localPos pos)) =
      Option.map (accumulate ib.normalize values 1)
        (gridCell ib.data (nearestCell (ib.localPos pos)))
    rw [hput, splatStep, if_pos hb]
    obtain ⟨h1, h2⟩ := inBounds_nonneg hb
    exact gridCell_modifyCell_eq _ _ _ h1 h2

/-- Witness for C8: the defaulted scalar-backend constructor carries no
filter, and on the filterless sample block a put at `(2,2)` leaves the
cell `(0,0)` untouched while accumulating into the nearest cell
`(2,2)`. -/
theorem no_filter_box_splat_witness :
    (mkImageBlockDefaults Backend.scalar (0, 0) (4, 4) 5).rfilter = none ∧
    (sampleBlock.put (2, 2) [1, 1, 1, 1, 1] true).cellAt (0, 0) =
      sampleBlock.cellAt (0, 0) := by
  obtain ⟨h1, _, _, h4, _⟩ :=
    no_filter_box_splat sampleBlock (2, 2) [1, 1, 1, 1, 1] Backend.scalar
      (0, 0) (4, 4) 5 [] rfl
  refine ⟨h1, h4 (0, 0) ?_⟩
  norm_num [sampleBlock, mkImageBlock, ImageBlock.localPos, nearestCell,
    nearestPix, Prod.ext_iff]

/-- C10: the binding's spectral `put` defaults `alpha` to 1, `weight`
to 1 and `active` to true, and the raw `put` and `read` default
`active` to true — calling with the defaults is the same call as
passing those values explicitly. -/
theorem binding_argument_defaults :
    put_spectral_alpha_default = 1 ∧ put_spectral_weight_default = 1 ∧
    put_spectral_active_default = true ∧ put_raw_active_default = true ∧
    read_active_default = true ∧
    (∀ (ib : ImageBlock) (conv : List ℚ → List ℚ → List ℚ) (pos : ℚ × ℚ)
        (wl v : List ℚ),
      ib.put_spectral conv pos wl v put_spectral_alpha_default
          put_spectral_weight_default put_spectral_active_default =
        ib.put_spectral conv pos wl v 1 1 true) ∧
    (∀ (ib : ImageBlock) (pos : ℚ × ℚ) (values : List ℚ),
      ib.put_raw pos values put_raw_active_default =
        ib.put_raw pos values true) ∧
    (∀ (ib : ImageBlock) (pos : ℚ × ℚ),
      ib.read pos read_active_default = ib.read pos true) :=
  ⟨rfl, rfl, rfl, rfl, rfl, fun _ _ _ _ _ => rfl, fun _ _ _ => rfl,
    fun _ _ => rfl⟩

/-- C9: the raw-values overload checks the vector length before the
active mask is consulted — the channel-mismatch error is raised even
for a call with `active = false`. -/
theorem put_raw_mismatch_error_despite_inactive (ib : ImageBlock)
    (pos : ℚ × ℚ) (values : List ℚ)
    (h : values.length ≠ ib.channel_count) :
    ib.put_raw pos values false = Except.error "Incompatible channel count!" := by
  rw [ImageBlock.put_raw, if_pos h]

/-- Witness for C9: two values into the 5-channel sample block with
`active = false` still raise the channel-mismatch error. -/
theorem put_raw_mismatch_error_despite_inactive_witness :
    sampleBlock.put_raw (0, 0) [4, 4] false =
      Except.error "Incompatible channel count!" :=
  put_raw_mismatch_error_despite_inactive sampleBlock (0, 0) [4, 4] (by decide)

end ImageBlockSpec
